import Mathlib

/-!
Verification development for the login-risk detection and notification
engine of the email-system repository.

The definitions below are shallow embeddings of the JavaScript source:

* `GeoLocationService` (geolocation resolver: `isValidIP`, `isPrivateIP`,
  `isCacheValid`, `getLocationInfo`, `calculateDistance`);
* `LoginAnomalyDetector` (`detectAnomalies` and its six checks);
* `SecurityNotificationService` (notification queue, `resolveAlert`);
* the `PATCH /alerts/:id/resolve` route.

External collaborators (database reads, the upstream HTTP provider, the
SMTP transport, clocks) are modelled as explicit environment records;
JavaScript exceptions are modelled with `Except`; JavaScript falsiness of
numbers (`!x` true for `null` and `0`) is modelled explicitly where the
source relies on it.
-/

namespace EmailSystem

/-! ## Geolocation service: IP validation (`isValidIP`, `isPrivateIP`)

The source validates IPs with regular expressions over the raw string;
we embed the strings as `List Char` and translate each regex into a
decidable function.
-/

/-- One hexadecimal digit, as accepted by the source's IPv6 regex
character class `[0-9a-fA-F]`. -/
def isHexDigitChar (c : Char) : Bool :=
  c.isDigit || ('a' ≤ c && c ≤ 'f') || ('A' ≤ c && c ≤ 'F')

/-- Split a character list on a separator character.  `splitOnChar c l`
returns the (always nonempty) list of separator-free fragments, with an
empty fragment between adjacent separators — the semantics of splitting
used to interpret the source's anchored, group-repeating regexes. -/
def splitOnChar (sep : Char) : List Char → List (List Char)
  | [] => [[]]
  | c :: cs =>
    if c = sep then [] :: splitOnChar sep cs
    else
      match splitOnChar sep cs with
      | [] => [[c]]
      | p :: ps => (c :: p) :: ps

/-- One IPv4 octet as matched by the source regex alternatives
`25[0-5]|2[0-4][0-9]|[01]?[0-9][0-9]?`. -/
def isOctet : List Char → Bool
  | [a] => a.isDigit
  | [a, b] => a.isDigit && b.isDigit
  | [a, b, c] =>
    ((a = '0' || a = '1') && b.isDigit && c.isDigit) ||
    (a = '2' && ('0' ≤ b && b ≤ '4') && c.isDigit) ||
    (a = '2' && b = '5' && ('0' ≤ c && c ≤ '5'))
  | _ => false

/-- The source's IPv4 regex: exactly four dot-separated octets. -/
def isValidIPv4 (l : List Char) : Bool :=
  let parts := splitOnChar '.' l
  parts.length = 4 && parts.all isOctet

/-- One IPv6 group as matched by `[0-9a-fA-F]{1,4}`. -/
def isHexGroup (p : List Char) : Bool :=
  decide (1 ≤ p.length) && decide (p.length ≤ 4) && p.all isHexDigitChar

/-- The source's IPv6 regex `^(?:[0-9a-fA-F]{1,4}:){7}[0-9a-fA-F]{1,4}$`:
exactly eight colon-separated groups of one to four hex digits.  Note
that this accepts only the full (uncompressed) textual form. -/
def isValidIPv6 (l : List Char) : Bool :=
  let parts := splitOnChar ':' l
  parts.length = 8 && parts.all isHexGroup

/-- `GeoLocationService.isValidIP`. -/
def isValidIP (l : List Char) : Bool :=
  isValidIPv4 l || isValidIPv6 l

/-- The `^172\.(1[6-9]|2[0-9]|3[0-1])\.` alternative of `isPrivateIP`. -/
def is172PrivateRange : List Char → Bool
  | '1' :: '7' :: '2' :: '.' :: a :: b :: '.' :: _ =>
    (a = '1' && ('6' ≤ b && b ≤ '9')) ||
    (a = '2' && b.isDigit) ||
    (a = '3' && (b = '0' || b = '1'))
  | _ => false

/-- `GeoLocationService.isPrivateIP`: the source tests the address string
against a fixed list of anchored prefix patterns (plus the exact string
`::1`). -/
def isPrivateIP (l : List Char) : Bool :=
  List.isPrefixOf ['1', '0', '.'] l ||
  is172PrivateRange l ||
  List.isPrefixOf ['1', '9', '2', '.', '1', '6', '8', '.'] l ||
  List.isPrefixOf ['1', '2', '7', '.'] l ||
  List.isPrefixOf ['1', '6', '9', '.', '2', '5', '4', '.'] l ||
  decide (l = [':', ':', '1']) ||
  List.isPrefixOf ['f', 'c', '0', '0', ':'] l ||
  List.isPrefixOf ['f', 'e', '8', '0', ':'] l

/-! ## Geolocation service: data model and `getLocationInfo` -/

/-- The canonical `LocationInfo` shape produced by the resolver. -/
structure LocationInfo where
  country : String
  region : String
  city : String
  latitude : Option ℝ
  longitude : Option ℝ
  timezone : Option String
  isp : String
  is_proxy : Bool
  is_vpn : Bool
  is_tor : Bool
  threat_level : String

/-- `GeoLocationService.getDefaultLocationInfo`. -/
def defaultLocationInfo : LocationInfo :=
  { country := "Unknown"
    region := "Unknown"
    city := "Unknown"
    latitude := none
    longitude := none
    timezone := none
    isp := "Unknown"
    is_proxy := false
    is_vpn := false
    is_tor := false
    threat_level := "low" }

/-- A row of `ip_geolocation_cache` as returned by `getCachedLocation`:
the location fields plus `last_updated` (a nullable timestamp, in
milliseconds since the epoch once parsed by `Date`). -/
structure GeoCacheEntry where
  info : LocationInfo
  last_updated : Option Int

/-- `GeoLocationService.isCacheValid`: a falsy (`NULL`) `last_updated`
is invalid; otherwise the entry is valid when its age is strictly below
24 hours (86 400 000 ms). -/
def isCacheValid (now : Int) (e : GeoCacheEntry) : Bool :=
  match e.last_updated with
  | none => false
  | some t => decide (now - t < 86400000)

/-- Environment of one `getLocationInfo` call: the cache row the
database returns for this IP (`none` also covers a swallowed read
error), the current clock, the rate limiter's verdict, and the outcome
of the upstream HTTP call (already normalised) were it issued. -/
structure GeoEnv where
  cached : Option GeoCacheEntry
  now : Int
  rateLimitOk : Bool
  upstream : Except Unit LocationInfo

/-- Observable result of one `getLocationInfo` call: the returned
`LocationInfo` together with how many database cache lookups and how
many upstream provider requests were issued. -/
structure ResolveResult where
  info : LocationInfo
  cacheLookups : Nat
  upstreamCalls : Nat

/-- The cache-miss tail of `getLocationInfo`: `fetchFromAPI` first
consults the rate limiter (throwing without any HTTP request when the
budget is exhausted), then issues the upstream request; every raised
error is caught by `getLocationInfo` and degraded to the default
location.  On success the result is cached (`saveCachedLocation`
swallows its own errors) and returned. -/
def fetchPath (env : GeoEnv) (lookups : Nat) : ResolveResult :=
  if env.rateLimitOk then
    match env.upstream with
    | .ok loc => ⟨loc, lookups, 1⟩
    | .error _ => ⟨defaultLocationInfo, lookups, 1⟩
  else ⟨defaultLocationInfo, lookups, 0⟩

/-- `GeoLocationService.getLocationInfo`: reject invalid or private IPs
with the default, then try the 24-hour cache, then the upstream
provider. -/
def getLocationInfo (ip : List Char) (env : GeoEnv) : ResolveResult :=
  if !isValidIP ip || isPrivateIP ip then ⟨defaultLocationInfo, 0, 0⟩
  else
    match env.cached with
    | some c => if isCacheValid env.now c then ⟨c.info, 1, 0⟩ else fetchPath env 1
    | none => fetchPath env 1

/-! ## Geolocation service: `calculateDistance`

The source guards with JavaScript falsiness (`!lat1 || !lon1 || ...`),
which rejects both a `null` coordinate and the numeric coordinate `0`,
and then applies the haversine great-circle formula with Earth radius
6371 km.  `Math.atan2` is embedded as the standard piecewise `arctan2`.
-/

open Classical in
/-- JavaScript `Math.atan2 y x` (real-valued, piecewise). -/
noncomputable def atan2 (y x : ℝ) : ℝ :=
  if 0 < x then Real.arctan (y / x)
  else if x < 0 ∧ 0 ≤ y then Real.arctan (y / x) + Real.pi
  else if x < 0 ∧ y < 0 then Real.arctan (y / x) - Real.pi
  else if x = 0 ∧ 0 < y then Real.pi / 2
  else if x = 0 ∧ y < 0 then -(Real.pi / 2)
  else 0

/-- `GeoLocationService.toRadians`. -/
noncomputable def toRadians (degrees : ℝ) : ℝ :=
  degrees * (Real.pi / 180)

/-- The haversine intermediate `a` of `calculateDistance`. -/
noncomputable def haversineA (lat1 lon1 lat2 lon2 : ℝ) : ℝ :=
  Real.sin (toRadians (lat2 - lat1) / 2) * Real.sin (toRadians (lat2 - lat1) / 2) +
    Real.cos (toRadians lat1) * Real.cos (toRadians lat2) *
      (Real.sin (toRadians (lon2 - lon1) / 2) * Real.sin (toRadians (lon2 - lon1) / 2))

/-- The haversine distance computed by `calculateDistance` once the
falsiness guard has passed (Earth radius 6371 km). -/
noncomputable def haversineDistance (lat1 lon1 lat2 lon2 : ℝ) : ℝ :=
  let a := haversineA lat1 lon1 lat2 lon2
  6371 * (2 * atan2 (Real.sqrt a) (Real.sqrt (1 - a)))

open Classical in
/-- `GeoLocationService.calculateDistance`: `null` when any coordinate
is JavaScript-falsy (absent or exactly `0`), otherwise the haversine
distance. -/
noncomputable def calculateDistance (lat1 lon1 lat2 lon2 : Option ℝ) : Option ℝ :=
  match lat1, lon1, lat2, lon2 with
  | some a, some b, some c, some d =>
    if a = 0 ∨ b = 0 ∨ c = 0 ∨ d = 0 then none
    else some (haversineDistance a b c d)
  | _, _, _, _ => none

/-! ## Login anomaly detector

`LoginAnomalyDetector.detectAnomalies` runs six checks against the
resolved location, the parsed device info and several database reads,
sums the scores of the checks that flagged, appends each flagged check
to the anomaly list, writes a `user_login_logs` row and returns the
assessment.  The database reads and the rule registry are modelled as
an explicit environment; the `INSERT` of the login record — whose
failure `recordLoginLog` rethrows — is modelled by `insertLoginOk`.
-/

/-- Parsed device info (`device_type`, `browser`, `os`). -/
structure DeviceInfo where
  device_type : String
  browser : String
  os : String
deriving DecidableEq

/-- The condition payload of a risk rule, with the fields the six
checks read (`conditions` is free-form JSON in the source). -/
structure RuleConditions where
  max_distance_km : ℝ
  time_window_hours : ℝ
  time_window_minutes : Nat
  max_attempts : Nat
  normal_hours : List Nat

/-- An enabled row of `login_risk_rules` as loaded by `loadRiskRules`. -/
structure RiskRule where
  riskScore : Nat
  conditions : RuleConditions

/-- A prior login row consulted by `checkGeographicAnomaly`: its
coordinates and its age in hours at detection time. -/
structure RecentLogin where
  latitude : Option ℝ
  longitude : Option ℝ
  hoursAgo : ℝ

/-- Environment of one `detectAnomalies` call: the resolver's output,
the parsed user agent, the rule registry (keyed by rule name) and the
database reads each check performs, plus the outcome of the final
login-record insert. -/
structure DetectEnv where
  ip_address : String
  locationInfo : LocationInfo
  deviceInfo : DeviceInfo
  rules : String → Option RiskRule
  recentLogins : List RecentLogin
  attemptCount : Nat
  trustedFingerprints : List String
  userLoginPattern : List Nat
  currentHour : Option Nat
  sessionCount : Nat
  maxSessions : Nat
  insertLoginOk : Bool

/-- The outcome of one check: whether it flagged, its score
contribution and its `type` tag. -/
structure CheckResult where
  isAnomalous : Bool
  riskScore : Nat
  ctype : String
deriving DecidableEq

/-- The `{ isAnomalous: false, riskScore: 0 }` result every check
returns when it does not flag. -/
def notAnomalous (t : String) : CheckResult := ⟨false, 0, t⟩

open Classical in
/-- JavaScript falsiness of a nullable numeric field: `!x` is true for
`null` and for `0`. -/
noncomputable def jsFalsyNum : Option ℝ → Bool
  | none => true
  | some x => decide (x = 0)

open Classical in
/-- `LoginAnomalyDetector.checkGeographicAnomaly`: with usable current
coordinates, a nonempty 24-hour location history and the rule
`异常地理位置` present, flag (with the rule's score) when some recent
login is farther than `max_distance_km` (a `null` distance compares as
`0`) and younger than `time_window_hours`. -/
noncomputable def checkGeographicAnomaly (env : DetectEnv) : CheckResult :=
  if jsFalsyNum env.locationInfo.latitude || jsFalsyNum env.locationInfo.longitude then
    notAnomalous "geographic_anomaly"
  else if env.recentLogins.isEmpty then notAnomalous "geographic_anomaly"
  else
    match env.rules "异常地理位置" with
    | none => notAnomalous "geographic_anomaly"
    | some rule =>
      if env.recentLogins.any fun r =>
          decide ((calculateDistance env.locationInfo.latitude env.locationInfo.longitude
              r.latitude r.longitude).getD 0 > rule.conditions.max_distance_km) &&
            decide (r.hoursAgo < rule.conditions.time_window_hours) then
        ⟨true, rule.riskScore, "geographic_anomaly"⟩
      else notAnomalous "geographic_anomaly"

/-- `LoginAnomalyDetector.checkIPReputation`: with the rule `可疑IP地址`
present, accumulate a factor list and score (+20 proxy, +15 VPN,
+30 Tor, +25 high threat else +15 medium threat) and flag — with the
accumulated score capped at the rule's configured score — exactly when
the factor list is nonempty. -/
def checkIPReputation (env : DetectEnv) : CheckResult :=
  match env.rules "可疑IP地址" with
  | none => notAnomalous "ip_reputation"
  | some rule =>
    let loc := env.locationInfo
    let factors : List String :=
      (if loc.is_proxy then ["代理服务器"] else []) ++
      (if loc.is_vpn then ["VPN"] else []) ++
      (if loc.is_tor then ["Tor网络"] else []) ++
      (if loc.threat_level = "high" then ["高威胁IP"]
       else if loc.threat_level = "medium" then ["中等威胁IP"] else [])
    let score : Nat :=
      (if loc.is_proxy then 20 else 0) +
      (if loc.is_vpn then 15 else 0) +
      (if loc.is_tor then 30 else 0) +
      (if loc.threat_level = "high" then 25
       else if loc.threat_level = "medium" then 15 else 0)
    if factors.length > 0 then ⟨true, min score rule.riskScore, "ip_reputation"⟩
    else notAnomalous "ip_reputation"

/-- `LoginAnomalyDetector.checkLoginFrequency`: with the rule
`频繁登录尝试` present, flag when the count of attempts from this IP in
the window reaches `max_attempts`. -/
def checkLoginFrequency (env : DetectEnv) : CheckResult :=
  match env.rules "频繁登录尝试" with
  | none => notAnomalous "login_frequency"
  | some rule =>
    if env.attemptCount ≥ rule.conditions.max_attempts then
      ⟨true, rule.riskScore, "login_frequency"⟩
    else notAnomalous "login_frequency"

/-- `LoginAnomalyDetector.generateDeviceFingerprint` builds
`type-browser-os-ip` and hashes it with SHA-256; the hash is modelled
by the (injective) concatenated string itself, which preserves the
membership tests the detector performs. -/
def deviceFingerprint (d : DeviceInfo) (ip : String) : String :=
  d.device_type ++ "-" ++ d.browser ++ "-" ++ d.os ++ "-" ++ ip

/-- `LoginAnomalyDetector.checkDeviceAnomaly`: with the rule
`新设备登录` present, flag when the fingerprint is not among the user's
trusted devices and the user already has at least one trusted device
(a first-ever device is never flagged). -/
def checkDeviceAnomaly (env : DetectEnv) : CheckResult :=
  match env.rules "新设备登录" with
  | none => notAnomalous "new_device"
  | some rule =>
    let fp := deviceFingerprint env.deviceInfo env.ip_address
    if env.trustedFingerprints.contains fp then notAnomalous "new_device"
    else if env.trustedFingerprints.length = 0 then notAnomalous "new_device"
    else ⟨true, rule.riskScore, "new_device"⟩

/-- `LoginAnomalyDetector.checkTimeAnomaly`: with the rule `异常时间登录`
present and a resolvable current hour, flag when the hour is outside
the user's own pattern (hours with ≥ 3 logins in 30 days) or — with no
pattern — outside the rule's `normal_hours`. -/
def checkTimeAnomaly (env : DetectEnv) : CheckResult :=
  match env.rules "异常时间登录" with
  | none => notAnomalous "time_anomaly"
  | some rule =>
    match env.currentHour with
    | none => notAnomalous "time_anomaly"
    | some h =>
      if env.userLoginPattern.length > 0 then
        if env.userLoginPattern.contains h then notAnomalous "time_anomaly"
        else ⟨true, rule.riskScore, "time_anomaly"⟩
      else if rule.conditions.normal_hours.contains h then notAnomalous "time_anomaly"
      else ⟨true, rule.riskScore, "time_anomaly"⟩

/-- `LoginAnomalyDetector.checkConcurrentSessions`: flag with the fixed
score 25 when the active-session count reaches the configured maximum
(no rule lookup is involved). -/
def checkConcurrentSessions (env : DetectEnv) : CheckResult :=
  if env.sessionCount ≥ env.maxSessions then ⟨true, 25, "concurrent_sessions"⟩
  else notAnomalous "concurrent_sessions"

/-- The six checks in the order `detectAnomalies` runs them. -/
noncomputable def runChecks (env : DetectEnv) : List CheckResult :=
  [checkGeographicAnomaly env, checkIPReputation env, checkLoginFrequency env,
   checkDeviceAnomaly env, checkTimeAnomaly env, checkConcurrentSessions env]

/-- The result object `detectAnomalies` returns. -/
structure RiskAssessment where
  totalRiskScore : Nat
  isSuspicious : Bool
  anomalies : List CheckResult
  locationInfo : LocationInfo
  deviceInfo : DeviceInfo

/-- One step of the accumulation `detectAnomalies` performs per check:
add the score and append the check when it flagged. -/
def accumulateCheck (acc : Nat × List CheckResult) (c : CheckResult) :
    Nat × List CheckResult :=
  if c.isAnomalous then (acc.1 + c.riskScore, acc.2 ++ [c]) else acc

/-- `LoginAnomalyDetector.detectAnomalies`: run the six checks,
accumulate the total score and the anomaly list, record the login and
return the assessment with `isSuspicious = totalRiskScore >= 50`.
`recordLoginLog` rethrows its insert error, and the surrounding catch
in `detectAnomalies` rethrows in turn, so a failed insert makes the
whole call throw instead of returning the assessment. -/
noncomputable def detectAnomalies (env : DetectEnv) : Except Unit RiskAssessment :=
  let acc := (runChecks env).foldl accumulateCheck (0, [])
  if env.insertLoginOk then
    .ok { totalRiskScore := acc.1
          isSuspicious := decide (acc.1 ≥ 50)
          anomalies := acc.2
          locationInfo := env.locationInfo
          deviceInfo := env.deviceInfo }
  else .error ()

/-! ## Security notification service: delivery queue

`processNotificationQueue` is a single worker that drains the alert
queue strictly in enqueue order; after delivering one queue item it
sleeps 1000 ms.  Delivering one item (`sendEmailNotifications`) loops
over the active administrators and issues one `sendMail` per
administrator, with each send wrapped in its own try/catch, so a
per-recipient failure is logged and the loop continues.  Sends are
modelled as instantaneous events stamped with the queue time: the only
programmed delay is the 1000 ms sleep between queue items, and no delay
separates the per-recipient sends of one item. -/

/-- An active administrator (`listActiveAdministrators`). -/
structure Admin where
  email : String
deriving DecidableEq

/-- One alert enqueued for notification. -/
structure AlertItem where
  alertId : Nat
deriving DecidableEq

/-- One attempted `sendMail` call: which alert, to whom, at what queue
time (ms), and whether the transport accepted it. -/
structure SendEvent where
  alertId : Nat
  email : String
  time : Nat
  ok : Bool
deriving DecidableEq

/-- `SecurityNotificationService.sendEmailNotifications` for one queue
item: one send per administrator, in administrator-list order; the
per-recipient try/catch means the attempt list does not depend on the
outcomes. -/
def sendEmailNotifications (admins : List Admin) (alert : AlertItem)
    (outcome : Nat → String → Bool) (t : Nat) : List SendEvent :=
  admins.map fun a => ⟨alert.alertId, a.email, t, outcome alert.alertId a.email⟩

/-- `SecurityNotificationService.processNotificationQueue`: drain the
queue in order, delivering each item and then sleeping 1000 ms. -/
def processNotificationQueue (admins : List Admin) (outcome : Nat → String → Bool) :
    List AlertItem → Nat → List SendEvent
  | [], _ => []
  | q :: qs, t =>
    sendEmailNotifications admins q outcome t ++
      processNotificationQueue admins outcome qs (t + 1000)

/-! ## Security alerts: resolution -/

/-- A `security_alerts` row (resolution-relevant fields). -/
structure SecurityAlert where
  isResolved : Bool
  resolvedBy : Option Nat
  resolvedAt : Option Int
  resolutionNotes : Option String
deriving DecidableEq

/-- `SecurityNotificationService.resolveAlert`: the unconditional
`UPDATE` that sets the resolved flag, resolver, timestamp and notes. -/
def serviceResolveAlert (a : SecurityAlert) (resolvedBy : Nat)
    (notes : Option String) (now : Int) : SecurityAlert :=
  { a with isResolved := true
           resolvedBy := some resolvedBy
           resolvedAt := some now
           resolutionNotes := notes }

/-- Outcome of the `PATCH /alerts/:id/resolve` route: the stored alert
after the request and the HTTP status code. -/
structure ResolveRouteResult where
  stored : Option SecurityAlert
  status : Nat
deriving DecidableEq

/-- The `PATCH /alerts/:id/resolve` route: 404 when the alert does not
exist, 400 — with no update — when it is already resolved, otherwise
the service update and 200. -/
def resolveAlertRoute (stored : Option SecurityAlert) (userId : Nat)
    (notes : Option String) (now : Int) : ResolveRouteResult :=
  match stored with
  | none => ⟨none, 404⟩
  | some a =>
    if a.isResolved then ⟨some a, 400⟩
    else ⟨some (serviceResolveAlert a userId notes now), 200⟩

/-! ## Concrete instances used by witnesses and counterexamples -/

/-- Everything but the transport outcome of a send event. -/
def sendAttempt (e : SendEvent) : Nat × String × Nat :=
  (e.alertId, e.email, e.time)

/-- Fixed rule-condition payload used by the concrete environments. -/
def rcZero : RuleConditions := ⟨0, 0, 0, 0, []⟩

/-- A location flagged as proxy and Tor exit (threat level low). -/
def locProxyTor : LocationInfo :=
  { defaultLocationInfo with is_proxy := true, is_tor := true }

/-- Environment whose only enabled rule is the IP-reputation rule with
configured score 49: the accumulated factor score 20 + 30 is capped to
49, every other check stays silent, so the total is exactly 49. -/
def env49 : DetectEnv :=
  { ip_address := "8.8.8.8"
    locationInfo := locProxyTor
    deviceInfo := ⟨"desktop", "Firefox 1", "Linux 1"⟩
    rules := fun n => if n = "可疑IP地址" then some ⟨49, rcZero⟩ else none
    recentLogins := []
    attemptCount := 0
    trustedFingerprints := []
    userLoginPattern := []
    currentHour := none
    sessionCount := 0
    maxSessions := 5
    insertLoginOk := true }

/-- Like `env49` but with the IP-reputation rule's score set to 50. -/
def env50 : DetectEnv :=
  { env49 with rules := fun n => if n = "可疑IP地址" then some ⟨50, rcZero⟩ else none }

/-- The assessment `detectAnomalies` produces on `env49`. -/
def assess49 : RiskAssessment :=
  { totalRiskScore := 49
    isSuspicious := false
    anomalies := [⟨true, 49, "ip_reputation"⟩]
    locationInfo := locProxyTor
    deviceInfo := ⟨"desktop", "Firefox 1", "Linux 1"⟩ }

/-- The assessment `detectAnomalies` produces on `env50`. -/
def assess50 : RiskAssessment :=
  { assess49 with totalRiskScore := 50, isSuspicious := true
                  anomalies := [⟨true, 50, "ip_reputation"⟩] }

/-- Environment identical to `env49` except that the login-record
insert fails. -/
def env49ins : DetectEnv := { env49 with insertLoginOk := false }

/-- Concrete environment with the new-device rule enabled and one
trusted device that does not match the login's fingerprint. -/
def c8env : DetectEnv :=
  { env49 with
      rules := fun n => if n = "新设备登录" then some ⟨30, rcZero⟩ else none
      trustedFingerprints := ["some-other-device"] }

/-- Like `c8env` but with zero trusted devices. -/
def c8envFirst : DetectEnv := { c8env with trustedFingerprints := [] }

/-- Concrete environment with the IP-reputation rule at score 40 and a
proxy plus Tor location (factor sum 50). -/
def c9env : DetectEnv :=
  { env49 with rules := fun n => if n = "可疑IP地址" then some ⟨40, rcZero⟩ else none }

/-- A non-default resolved location. -/
def locParis : LocationInfo :=
  { defaultLocationInfo with country := "France", city := "Paris" }

/-- A cache entry for `locParis` last updated at epoch-time 1000 ms. -/
def cacheParis : GeoCacheEntry := ⟨locParis, some 1000⟩

/-- The full-form IPv6 address `fd00:0:0:0:0:0:0:1`, which lies inside
the unique-local range fc00::/7 but does not carry the textual prefix
`fc00:` the source tests for. -/
def fd00ip : List Char :=
  ['f', 'd', '0', '0', ':', '0', ':', '0', ':', '0', ':', '0', ':', '0',
   ':', '0', ':', '1']

/-- The compressed-form IPv6 address `2001:db8::1`. -/
def ipCompressed : List Char :=
  ['2', '0', '0', '1', ':', 'd', 'b', '8', ':', ':', '1']

/-! ## Helper lemmas -/

/-- Closed form of the score/anomaly accumulation in `detectAnomalies`. -/
theorem foldl_accumulateCheck (cs : List CheckResult) (n : Nat) (l : List CheckResult) :
    cs.foldl accumulateCheck (n, l) =
      (n + ((cs.filter fun c => c.isAnomalous).map CheckResult.riskScore).sum,
        l ++ cs.filter fun c => c.isAnomalous) := by
  induction cs generalizing n l with
  | nil => simp
  | cons c cs ih =>
    simp only [List.foldl_cons, accumulateCheck, List.filter_cons]
    by_cases h : c.isAnomalous <;>
      simp [h, ih, Nat.add_assoc, List.append_assoc]

/-- `splitOnChar` never produces the empty fragment list. -/
theorem splitOnChar_ne_nil (sep : Char) (l : List Char) :
    splitOnChar sep l ≠ [] := by
  cases l with
  | nil => simp [splitOnChar]
  | cons c cs =>
    unfold splitOnChar
    by_cases h : c = sep
    · simp [h]
    · simp only [if_neg h]
      cases hr : splitOnChar sep cs with
      | nil => simp
      | cons p ps => simp

/-- Splitting across a separator concatenates the fragment lists. -/
theorem splitOnChar_append_sep (sep : Char) (s t : List Char) :
    ∃ ps, ps ≠ [] ∧
      splitOnChar sep (s ++ sep :: t) = ps ++ splitOnChar sep t := by
  induction s with
  | nil =>
    refine ⟨[[]], by simp, ?_⟩
    simp [splitOnChar]
  | cons c s ih =>
    obtain ⟨ps, hne, heq⟩ := ih
    by_cases h : c = sep
    · refine ⟨[] :: ps, by simp, ?_⟩
      have h0 : (c :: s) ++ sep :: t = c :: (s ++ sep :: t) := rfl
      rw [h0, splitOnChar, if_pos h, heq]
      rfl
    · cases ps with
      | nil => exact absurd rfl hne
      | cons p ps' =>
        refine ⟨(c :: p) :: ps', by simp, ?_⟩
        have h0 : (c :: s) ++ sep :: t = c :: (s ++ sep :: t) := rfl
        rw [h0, splitOnChar, if_neg h, heq, List.cons_append]
        rfl

/-- Two adjacent separators leave an empty fragment. -/
theorem nil_mem_splitOnChar_double (sep : Char) (s t : List Char) :
    [] ∈ splitOnChar sep (s ++ sep :: sep :: t) := by
  obtain ⟨ps, _, heq⟩ := splitOnChar_append_sep sep s (sep :: t)
  rw [heq]
  have h2 : splitOnChar sep (sep :: t) = [] :: splitOnChar sep t := by
    simp [splitOnChar]
  rw [h2]
  simp

/-- A character distinct from the separator survives into some
fragment. -/
theorem mem_splitOnChar_of_mem (sep c : Char) (l : List Char)
    (hc : c ∈ l) (hne : c ≠ sep) :
    ∃ p ∈ splitOnChar sep l, c ∈ p := by
  induction l with
  | nil => cases hc
  | cons x xs ih =>
    by_cases hx : x = sep
    · have hcx : c ∈ xs := by
        rcases List.mem_cons.mp hc with h | h
        · exact absurd (h.trans hx) hne
        · exact h
      obtain ⟨p, hp, hcp⟩ := ih hcx
      refine ⟨p, ?_, hcp⟩
      unfold splitOnChar
      simp [hx, hp]
    · cases hr : splitOnChar sep xs with
      | nil => exact absurd hr (splitOnChar_ne_nil sep xs)
      | cons p ps =>
        rcases List.mem_cons.mp hc with h | h
        · refine ⟨x :: p, ?_, by simp [h]⟩
          unfold splitOnChar
          simp [hx, hr]
        · obtain ⟨q, hq, hcq⟩ := ih h
          rw [hr] at hq
          rcases List.mem_cons.mp hq with rfl | hq'
          · refine ⟨x :: q, ?_, by simp [hcq]⟩
            unfold splitOnChar
            simp [hx, hr]
          · refine ⟨q, ?_, hcq⟩
            unfold splitOnChar
            simp [hx, hr, hq']

/-- A fragment containing a colon is not an IPv4 octet. -/
theorem isOctet_eq_false_of_colon (p : List Char) (h : ':' ∈ p) :
    isOctet p = false := by
  match p with
  | [] => cases h
  | [a] =>
    rcases List.mem_singleton.mp h with rfl
    rfl
  | [a, b] =>
    rcases List.mem_cons.mp h with h1 | h1
    · cases h1
      rfl
    · rcases List.mem_singleton.mp h1 with rfl
      simp [isOctet, show (':').isDigit = false from rfl]
  | [a, b, c] =>
    rcases List.mem_cons.mp h with h1 | h1
    · cases h1
      rfl
    · rcases List.mem_cons.mp h1 with h2 | h2
      · cases h2
        simp [isOctet, show (':').isDigit = false from rfl,
          show decide ((':' : Char) ≤ '4') = false from rfl,
          show decide ((':' : Char) = '5') = false from rfl]
      · rcases List.mem_singleton.mp h2 with rfl
        simp [isOctet, show (':').isDigit = false from rfl,
          show decide ((':' : Char) ≤ '5') = false from rfl]
  | a :: b :: c :: d :: r => rfl

/-- A string with two adjacent colons fails both address regexes. -/
theorem isValidIP_eq_false_of_double_colon (l : List Char)
    (h : [':', ':'] <:+: l) : isValidIP l = false := by
  obtain ⟨s, t, rfl⟩ := h
  have hl : s ++ [':', ':'] ++ t = s ++ ':' :: ':' :: t := by simp
  rw [hl]
  have h4 : isValidIPv4 (s ++ ':' :: ':' :: t) = false := by
    have hcmem : ':' ∈ s ++ ':' :: ':' :: t := by simp
    obtain ⟨p, hp, hcp⟩ :=
      mem_splitOnChar_of_mem '.' ':' (s ++ ':' :: ':' :: t) hcmem (by decide)
    unfold isValidIPv4
    have : (splitOnChar '.' (s ++ ':' :: ':' :: t)).all isOctet = false := by
      rw [List.all_eq_false]
      exact ⟨p, hp, by simp [isOctet_eq_false_of_colon p hcp]⟩
    simp [this]
  have h6 : isValidIPv6 (s ++ ':' :: ':' :: t) = false := by
    have hmem := nil_mem_splitOnChar_double ':' s t
    unfold isValidIPv6
    have : (splitOnChar ':' (s ++ ':' :: ':' :: t)).all isHexGroup = false := by
      rw [List.all_eq_false]
      exact ⟨[], hmem, by simp [isHexGroup]⟩
    simp [this]
  simp [isValidIP, h4, h6]

/-- Swapping the two points leaves the haversine intermediate
unchanged. -/
theorem haversineA_symm (lat1 lon1 lat2 lon2 : ℝ) :
    haversineA lat2 lon2 lat1 lon1 = haversineA lat1 lon1 lat2 lon2 := by
  unfold haversineA
  have h1 : toRadians (lat1 - lat2) / 2 = -(toRadians (lat2 - lat1) / 2) := by
    unfold toRadians; ring
  have h2 : toRadians (lon1 - lon2) / 2 = -(toRadians (lon2 - lon1) / 2) := by
    unfold toRadians; ring
  rw [h1, h2]
  simp only [Real.sin_neg]
  ring

/-- The haversine distance is symmetric in its two points. -/
theorem haversineDistance_symm (lat1 lon1 lat2 lon2 : ℝ) :
    haversineDistance lat2 lon2 lat1 lon1 = haversineDistance lat1 lon1 lat2 lon2 := by
  simp only [haversineDistance]
  rw [haversineA_symm]

/-- The haversine intermediate vanishes on identical points. -/
theorem haversineA_self (lat lon : ℝ) : haversineA lat lon lat lon = 0 := by
  unfold haversineA toRadians
  simp

/-- The haversine distance vanishes on identical points. -/
theorem haversineDistance_self (lat lon : ℝ) :
    haversineDistance lat lon lat lon = 0 := by
  simp only [haversineDistance]
  rw [haversineA_self]
  rw [Real.sqrt_zero, sub_zero, Real.sqrt_one]
  unfold atan2
  rw [if_pos one_pos]
  simp

/-! ## C1: score aggregation and the suspicion threshold -/

/-- C1.  Whenever `detectAnomalies` returns an assessment, its total
risk score is exactly the sum of the score contributions of the
anomalies it reports (only the per-check IP-reputation cap having been
applied inside that check), and `isSuspicious` holds exactly when the
total reaches the threshold 50; in particular a total of 49 yields
`isSuspicious = false` and a total of 50 yields `isSuspicious = true`. -/
theorem detect_score_aggregation :
    ∀ (env : DetectEnv) (a : RiskAssessment), detectAnomalies env = .ok a →
      a.totalRiskScore = (a.anomalies.map CheckResult.riskScore).sum ∧
        (a.isSuspicious = true ↔ 50 ≤ a.totalRiskScore) ∧
        (a.totalRiskScore = 49 → a.isSuspicious = false) ∧
        (a.totalRiskScore = 50 → a.isSuspicious = true) := by
  intro env a h
  unfold detectAnomalies at h
  by_cases hio : env.insertLoginOk
  · simp only [hio, if_true, Except.ok.injEq] at h
    subst h
    rw [foldl_accumulateCheck]
    refine ⟨by simp, ?_, ?_, ?_⟩
    · simp [ge_iff_le]
    · intro h49
      simp only [h49] at *
      simp_all [ge_iff_le]
    · intro h50
      simp only [h50] at *
      simp_all [ge_iff_le]
  · simp [hio] at h

/-- Witness for C1: concrete runs reaching totals 49 and 50, on which
the threshold flips from not suspicious to suspicious. -/
theorem detect_score_aggregation_witness :
    assess49.isSuspicious = false ∧ assess50.isSuspicious = true :=
  ⟨(detect_score_aggregation env49 assess49 rfl).2.2.1 rfl,
   (detect_score_aggregation env50 assess50 rfl).2.2.2 rfl⟩

/-! ## C2: a failed login-record insert aborts `detectAnomalies` -/

/-- C2 (divergence witness).  When the `user_login_logs` insert fails,
`recordLoginLog` rethrows and `detectAnomalies` rethrows in turn, so
the caller receives the persistence error instead of the computed
assessment — for every environment, however benign. -/
theorem detect_insert_failure_propagates :
    ∀ env : DetectEnv, env.insertLoginOk = false →
      detectAnomalies env = .error () := by
  intro env h
  unfold detectAnomalies
  simp [h]

/-- Witness for C2: on a concrete login whose record insert fails, the
detector throws rather than returning the (computable) assessment. -/
theorem detect_insert_failure_propagates_witness :
    detectAnomalies env49ins = .error () :=
  detect_insert_failure_propagates env49ins rfl

/-! ## C4: notification delivery -/

/-- C4 counterexample.  A single enqueued alert delivered to two active
administrators produces its two send calls at the same queue instant:
the per-recipient sends of one queue item are issued back-to-back, with
no 1-second spacing between them (the 1000 ms sleep separates queue
items only). -/
theorem notification_spacing_cex :
    processNotificationQueue [⟨"admin1"⟩, ⟨"admin2"⟩] (fun _ _ => true) [⟨1⟩] 0 =
      [⟨1, "admin1", 0, true⟩, ⟨1, "admin2", 0, true⟩] := rfl

/-- C4 (amended).  Draining the queue issues, for each enqueued alert
in enqueue order, exactly one send call per active administrator in
administrator-list order; the attempted sends do not depend on the
per-recipient outcomes (a failure for one recipient never suppresses
the remaining recipients); and every send of a later queue item happens
at least 1000 ms after every send of an earlier item — but sends of one
item share an instant. -/
theorem notification_delivery :
    (∀ (admins : List Admin) (outcome : Nat → String → Bool)
        (queue : List AlertItem) (t : Nat),
        (processNotificationQueue admins outcome queue t).map
            (fun e => (e.alertId, e.email)) =
          queue.flatMap fun q => admins.map fun a => (q.alertId, a.email)) ∧
    (∀ (admins : List Admin) (o₁ o₂ : Nat → String → Bool)
        (queue : List AlertItem) (t : Nat),
        (processNotificationQueue admins o₁ queue t).map sendAttempt =
          (processNotificationQueue admins o₂ queue t).map sendAttempt) ∧
    (∀ (admins : List Admin) (outcome : Nat → String → Bool)
        (q : AlertItem) (qs : List AlertItem) (t : Nat) (e₁ e₂ : SendEvent),
        e₁ ∈ sendEmailNotifications admins q outcome t →
        e₂ ∈ processNotificationQueue admins outcome qs (t + 1000) →
        e₁.time + 1000 ≤ e₂.time) := by
  refine ⟨?_, ?_, ?_⟩
  · intro admins outcome queue t
    induction queue generalizing t with
    | nil => simp [processNotificationQueue]
    | cons q qs ih =>
      simp [processNotificationQueue, sendEmailNotifications, ih,
        List.map_map, Function.comp]
  · intro admins o₁ o₂ queue t
    induction queue generalizing t with
    | nil => simp [processNotificationQueue]
    | cons q qs ih =>
      simp [processNotificationQueue, sendEmailNotifications, ih,
        List.map_map, Function.comp, sendAttempt]
  · have hlb : ∀ (admins : List Admin) (outcome : Nat → String → Bool)
        (qs : List AlertItem) (t : Nat) (e : SendEvent),
        e ∈ processNotificationQueue admins outcome qs t → t ≤ e.time := by
      intro admins outcome qs
      induction qs with
      | nil => intro t e he; simp [processNotificationQueue] at he
      | cons q qs ih =>
        intro t e he
        simp only [processNotificationQueue, List.mem_append] at he
        rcases he with he | he
        · simp only [sendEmailNotifications, List.mem_map] at he
          obtain ⟨a, _, rfl⟩ := he
          exact le_refl _
        · exact le_trans (Nat.le_add_right t 1000) (ih _ e he)
    intro admins outcome q qs t e₁ e₂ h₁ h₂
    have h₁t : e₁.time = t := by
      simp only [sendEmailNotifications, List.mem_map] at h₁
      obtain ⟨a, _, rfl⟩ := h₁
      rfl
    rw [h₁t]
    exact hlb admins outcome qs (t + 1000) e₂ h₂

/-- Witness for C4 (amended): three administrators, the transport
failing for the second one; all three send calls are still issued, and
a send of the next queue item is at least 1000 ms later. -/
theorem notification_delivery_witness :
    ((processNotificationQueue [⟨"a1"⟩, ⟨"a2"⟩, ⟨"a3"⟩]
          (fun _ r => !(r = "a2")) [⟨7⟩, ⟨8⟩] 0).map
        (fun e => (e.alertId, e.email)) =
      [(7, "a1"), (7, "a2"), (7, "a3"), (8, "a1"), (8, "a2"), (8, "a3")]) ∧
    (⟨7, "a1", 0, true⟩ : SendEvent).time + 1000 ≤
      (⟨8, "a1", 1000, true⟩ : SendEvent).time := by
  constructor
  · rw [notification_delivery.1]
    rfl
  · exact notification_delivery.2.2 [⟨"a1"⟩, ⟨"a2"⟩, ⟨"a3"⟩]
      (fun _ r => !(r = "a2")) ⟨7⟩ [⟨8⟩] 0 _ _ (by simp [sendEmailNotifications])
      (by simp [processNotificationQueue, sendEmailNotifications])

/-! ## C5: resolution is terminal -/

/-- C5.  The first resolve call on an unresolved alert sets the
resolved flag, resolver, timestamp and notes (HTTP 200); a resolve call
on an already-resolved alert is rejected with HTTP 400 and leaves the
stored alert — `resolved_at` and `resolved_by` included — unchanged;
and neither alert-mutating operation ever turns a resolved alert back
into an unresolved one. -/
theorem resolve_terminal :
    (∀ (a : SecurityAlert) (u : Nat) (n : Option String) (t : Int),
        a.isResolved = false →
        resolveAlertRoute (some a) u n t =
          ⟨some ⟨true, some u, some t, n⟩, 200⟩) ∧
    (∀ (a : SecurityAlert) (u : Nat) (n : Option String) (t : Int),
        a.isResolved = true →
        resolveAlertRoute (some a) u n t = ⟨some a, 400⟩) ∧
    (∀ (a : SecurityAlert) (u : Nat) (n : Option String) (t : Int),
        (serviceResolveAlert a u n t).isResolved = true) ∧
    (∀ (a b : SecurityAlert) (u : Nat) (n : Option String) (t : Int),
        a.isResolved = true →
        (resolveAlertRoute (some a) u n t).stored = some b →
        b.isResolved = true) := by
  refine ⟨?_, ?_, ?_, ?_⟩
  · intro a u n t h
    simp [resolveAlertRoute, serviceResolveAlert, h]
  · intro a u n t h
    simp [resolveAlertRoute, h]
  · intro a u n t
    simp [serviceResolveAlert]
  · intro a b u n t h hb
    simp [resolveAlertRoute, h] at hb
    simp [← hb, h]

/-- Witness for C5: a concrete first resolution succeeds and fills the
resolution fields; the second call on the result is rejected with the
fields untouched. -/
theorem resolve_terminal_witness :
    resolveAlertRoute (some ⟨false, none, none, none⟩) 1 (some "done") 5 =
      ⟨some ⟨true, some 1, some 5, some "done"⟩, 200⟩ ∧
    resolveAlertRoute (some ⟨true, some 1, some 5, some "done"⟩) 2 (some "again") 9 =
      ⟨some ⟨true, some 1, some 5, some "done"⟩, 400⟩ :=
  ⟨resolve_terminal.1 ⟨false, none, none, none⟩ 1 (some "done") 5 rfl,
   resolve_terminal.2.1 ⟨true, some 1, some 5, some "done"⟩ 2 (some "again") 9 rfl⟩

/-! ## C8: the new-device check -/

/-- C8.  With the `新设备登录` rule enabled, the new-device check flags
exactly when the login's fingerprint is not among the user's trusted
devices and the user already has at least one trusted device; a user
with zero trusted devices is never flagged, whatever the fingerprint. -/
theorem new_device_trigger :
    (∀ (env : DetectEnv) (rule : RiskRule), env.rules "新设备登录" = some rule →
        ((checkDeviceAnomaly env).isAnomalous = true ↔
          env.trustedFingerprints.contains
              (deviceFingerprint env.deviceInfo env.ip_address) = false ∧
            env.trustedFingerprints ≠ [])) ∧
    (∀ env : DetectEnv, env.trustedFingerprints = [] →
        (checkDeviceAnomaly env).isAnomalous = false) := by
  constructor
  · intro env rule h
    unfold checkDeviceAnomaly
    rw [h]
    by_cases hm : deviceFingerprint env.deviceInfo env.ip_address ∈
        env.trustedFingerprints
    · simp [hm, notAnomalous]
    · by_cases he : env.trustedFingerprints = []
      · simp [hm, he, notAnomalous]
      · simp [hm, he, notAnomalous, List.length_eq_zero]
  · intro env h
    unfold checkDeviceAnomaly
    cases hr : env.rules "新设备登录" with
    | none => simp [notAnomalous]
    | some rule => simp [h, notAnomalous]

/-- Witness for C8: the unknown fingerprint flags when one trusted
device exists, and the very same login does not flag for a user with no
trusted devices. -/
theorem new_device_trigger_witness :
    (checkDeviceAnomaly c8env).isAnomalous = true ∧
      (checkDeviceAnomaly c8envFirst).isAnomalous = false :=
  ⟨(new_device_trigger.1 c8env ⟨30, rcZero⟩ rfl).mpr ⟨by decide, by decide⟩,
   new_device_trigger.2 c8envFirst rfl⟩

/-! ## C9: the IP-reputation check -/

/-- C9.  With the `可疑IP地址` rule enabled, the IP-reputation check
flags exactly when some proxy/VPN/Tor flag is set or the threat level
is `medium` or `high`, and its score contribution is the sum of the
applicable factors (+20 proxy, +15 VPN, +30 Tor, +25 high threat or
+15 medium threat, the two being mutually exclusive), capped at the
rule's configured score. -/
theorem ip_reputation_score :
    ∀ (env : DetectEnv) (rule : RiskRule), env.rules "可疑IP地址" = some rule →
      ((checkIPReputation env).isAnomalous =
        (env.locationInfo.is_proxy || env.locationInfo.is_vpn ||
          env.locationInfo.is_tor ||
          decide (env.locationInfo.threat_level = "high") ||
          decide (env.locationInfo.threat_level = "medium"))) ∧
      ((checkIPReputation env).isAnomalous = true →
        (checkIPReputation env).riskScore =
          min ((if env.locationInfo.is_proxy then 20 else 0) +
              (if env.locationInfo.is_vpn then 15 else 0) +
              (if env.locationInfo.is_tor then 30 else 0) +
              (if env.locationInfo.threat_level = "high" then 25
                else if env.locationInfo.threat_level = "medium" then 15 else 0))
            rule.riskScore) := by
  intro env rule h
  unfold checkIPReputation
  rw [h]
  by_cases hp : env.locationInfo.is_proxy <;>
    by_cases hv : env.locationInfo.is_vpn <;>
      by_cases ht : env.locationInfo.is_tor <;>
        by_cases hh : env.locationInfo.threat_level = "high" <;>
          by_cases hm : env.locationInfo.threat_level = "medium" <;>
            simp_all [notAnomalous]

/-- Witness for C9: proxy (+20) and Tor (+30) sum to 50 and are capped
at the rule's configured score 40. -/
theorem ip_reputation_score_witness :
    (checkIPReputation c9env).isAnomalous = true ∧
      (checkIPReputation c9env).riskScore = 40 := by
  have h := ip_reputation_score c9env ⟨40, rcZero⟩ rfl
  have h1 : (checkIPReputation c9env).isAnomalous = true := by
    rw [h.1]; rfl
  exact ⟨h1, by rw [h.2 h1]; rfl⟩

/-! ## C3: the resolver degrades to the default location -/

/-- C3 counterexample.  The full-form address `fd00:0:0:0:0:0:0:1`
lies in the unique-local range fc00::/7, yet the source's private-IP
patterns (`^fc00:`, `^fe80:` and the IPv4 prefixes) do not match it:
with a cold cache the resolver issues an upstream call and returns the
provider's answer, not the conservative default. -/
theorem resolve_private_range_cex :
    isValidIP fd00ip = true ∧ isPrivateIP fd00ip = false ∧
      getLocationInfo fd00ip ⟨none, 0, true, .ok locParis⟩ = ⟨locParis, 1, 1⟩ ∧
      locParis.country ≠ defaultLocationInfo.country :=
  ⟨by decide, by decide, rfl, by decide⟩

/-- C3 (amended).  `resolve` returns the conservative default — with
no cache lookup and no upstream call — for every IP that is malformed
or matches one of the source's private patterns (`10.`, `172.16-31.`,
`192.168.`, `127.`, `169.254.`, the exact string `::1`, and the textual
prefixes `fc00:` and `fe80:`); and for valid, non-matching IPs it
degrades to the default on rate-limit exhaustion (without issuing the
upstream call) and on upstream failure.  Full-form IPv6 addresses
elsewhere in fc00::/7 or fe80::/10 are not treated as private. -/
theorem resolve_conservative_default :
    (∀ (ip : List Char) (env : GeoEnv),
        isValidIP ip = false ∨ isPrivateIP ip = true →
        getLocationInfo ip env = ⟨defaultLocationInfo, 0, 0⟩) ∧
    (∀ (ip : List Char) (env : GeoEnv),
        isValidIP ip = true → isPrivateIP ip = false →
        (∀ c, env.cached = some c → isCacheValid env.now c = false) →
        env.rateLimitOk = false →
        getLocationInfo ip env = ⟨defaultLocationInfo, 1, 0⟩) ∧
    (∀ (ip : List Char) (env : GeoEnv),
        isValidIP ip = true → isPrivateIP ip = false →
        (∀ c, env.cached = some c → isCacheValid env.now c = false) →
        env.rateLimitOk = true → env.upstream = .error () →
        getLocationInfo ip env = ⟨defaultLocationInfo, 1, 1⟩) := by
  refine ⟨?_, ?_, ?_⟩
  · intro ip env h
    unfold getLocationInfo
    rcases h with h | h <;> simp [h]
  · intro ip env hv hp hc hr
    unfold getLocationInfo
    rw [hv, hp]
    simp only [Bool.not_true, Bool.false_or, if_false]
    cases he : env.cached with
    | none => simp [fetchPath, hr]
    | some c => simp [fetchPath, hr, hc c he]
  · intro ip env hv hp hc hr hu
    unfold getLocationInfo
    rw [hv, hp]
    simp only [Bool.not_true, Bool.false_or, if_false]
    cases he : env.cached with
    | none => simp [fetchPath, hr, hu]
    | some c => simp [fetchPath, hr, hu, hc c he]

/-- Witness for C3 (amended): a malformed address, a rate-limited
resolution and an upstream failure all yield the default location. -/
theorem resolve_conservative_default_witness :
    getLocationInfo ['a', 'b', 'c'] ⟨none, 0, true, .ok locParis⟩ =
        ⟨defaultLocationInfo, 0, 0⟩ ∧
      getLocationInfo ['9', '.', '9', '.', '9', '.', '9']
          ⟨none, 0, false, .ok locParis⟩ = ⟨defaultLocationInfo, 1, 0⟩ ∧
      getLocationInfo ['9', '.', '9', '.', '9', '.', '9']
          ⟨none, 0, true, .error ()⟩ = ⟨defaultLocationInfo, 1, 1⟩ :=
  ⟨resolve_conservative_default.1 _ _ (Or.inl (by decide)),
   resolve_conservative_default.2.1 _ _ (by decide) (by decide)
     (fun c hc => by cases hc) rfl,
   resolve_conservative_default.2.2 _ _ (by decide) (by decide)
     (fun c hc => by cases hc) rfl rfl⟩

/-! ## C7: the 24-hour cache -/

/-- C7 counterexample.  The private address `10.0.0.1` with a fresh
(1-second-old) cache entry for a non-default location: the resolver
rejects the address before ever consulting the cache and returns the
default, not the fresh cached entry. -/
theorem cache_fresh_private_cex :
    isCacheValid 2000 cacheParis = true ∧
      getLocationInfo ['1', '0', '.', '0', '.', '0', '.', '1']
          ⟨some cacheParis, 2000, true, .ok defaultLocationInfo⟩ =
        ⟨defaultLocationInfo, 0, 0⟩ ∧
      cacheParis.info.country ≠ defaultLocationInfo.country :=
  ⟨rfl, rfl, by decide⟩

/-- C7 (amended).  For every valid, non-private IP whose cache entry is
younger than 24 hours, `resolve` returns that entry unchanged after one
cache lookup and no upstream call; and whenever an upstream call is
issued at all, the cache entry was absent or at least 24 hours old.
(For invalid or private IPs the validity rejection precedes the cache,
so a fresh entry is not returned.) -/
theorem cache_hit_no_upstream :
    (∀ (ip : List Char) (env : GeoEnv) (c : GeoCacheEntry),
        isValidIP ip = true → isPrivateIP ip = false →
        env.cached = some c → isCacheValid env.now c = true →
        getLocationInfo ip env = ⟨c.info, 1, 0⟩) ∧
    (∀ (ip : List Char) (env : GeoEnv),
        (getLocationInfo ip env).upstreamCalls ≠ 0 →
        ∀ c, env.cached = some c → isCacheValid env.now c = false) := by
  constructor
  · intro ip env c hv hp he hc
    unfold getLocationInfo
    rw [hv, hp]
    simp [he, hc]
  · intro ip env hcall c he
    by_cases hc : isCacheValid env.now c
    · exfalso
      apply hcall
      unfold getLocationInfo at *
      by_cases hg : !isValidIP ip || isPrivateIP ip
      · simp [hg]
      · simp [hg, he, hc]
    · simpa using hc

/-- Witness for C7 (amended): a public IP with a fresh cached location
is answered from the cache with no upstream call. -/
theorem cache_hit_no_upstream_witness :
    getLocationInfo ['8', '.', '8', '.', '8', '.', '8']
        ⟨some cacheParis, 2000, true, .error ()⟩ = ⟨locParis, 1, 0⟩ :=
  cache_hit_no_upstream.1 _ _ cacheParis (by decide) (by decide) rfl rfl

/-! ## C10: compressed IPv6 addresses are rejected -/

/-- C10.  Any address containing two adjacent colons — in particular
every syntactically valid public IPv6 address written in compressed
form, such as `2001:db8::1` — fails the validity pattern (which accepts
IPv6 only as exactly eight colon-separated hex groups), so `resolve`
returns the default location with no cache lookup and no upstream
call. -/
theorem compressed_ipv6_default :
    ∀ (l : List Char) (env : GeoEnv), [':', ':'] <:+: l →
      isValidIP l = false ∧ getLocationInfo l env = ⟨defaultLocationInfo, 0, 0⟩ := by
  intro l env h
  have hv := isValidIP_eq_false_of_double_colon l h
  refine ⟨hv, ?_⟩
  unfold getLocationInfo
  simp [hv]

/-- Witness for C10: `2001:db8::1` is rejected outright even with a
fresh cache entry and a healthy upstream available. -/
theorem compressed_ipv6_default_witness :
    isValidIP ipCompressed = false ∧
      getLocationInfo ipCompressed ⟨some cacheParis, 2000, true, .ok locParis⟩ =
        ⟨defaultLocationInfo, 0, 0⟩ :=
  compressed_ipv6_default ipCompressed ⟨some cacheParis, 2000, true, .ok locParis⟩
    ⟨['2', '0', '0', '1', ':', 'd', 'b', '8'], ['1'], rfl⟩

/-! ## C6: distance symmetry, self-distance and the null guard -/

/-- C6 counterexample.  `calculateDistance` also returns `null` when a
coordinate is present but equal to `0` — the guard `!lat1 || ...` tests
JavaScript falsiness, not absence — so "null exactly when some
coordinate is missing" fails at latitude 0. -/
theorem distance_zero_coordinate_cex :
    calculateDistance (some 0) (some 10) (some 20) (some 30) = none := by
  simp [calculateDistance]

/-- C6 (amended).  `calculateDistance` is symmetric in its two points;
it equals 0 on identical points whose coordinates are present and
nonzero; and it returns `null` exactly when some coordinate is
JavaScript-falsy, i.e. missing or equal to 0. -/
theorem calculateDistance_properties :
    (∀ lat1 lon1 lat2 lon2 : Option ℝ,
        calculateDistance lat1 lon1 lat2 lon2 =
          calculateDistance lat2 lon2 lat1 lon1) ∧
    (∀ lat lon : ℝ, lat ≠ 0 → lon ≠ 0 →
        calculateDistance (some lat) (some lon) (some lat) (some lon) = some 0) ∧
    (∀ lat1 lon1 lat2 lon2 : Option ℝ,
        calculateDistance lat1 lon1 lat2 lon2 = none ↔
          (lat1 = none ∨ lat1 = some 0) ∨ (lon1 = none ∨ lon1 = some 0) ∨
            (lat2 = none ∨ lat2 = some 0) ∨ (lon2 = none ∨ lon2 = some 0)) := by
  refine ⟨?_, ?_, ?_⟩
  · intro lat1 lon1 lat2 lon2
    rcases lat1 with _ | a <;> rcases lon1 with _ | b <;>
      rcases lat2 with _ | c <;> rcases lon2 with _ | d <;>
        try rfl
    simp only [calculateDistance]
    by_cases h : a = 0 ∨ b = 0 ∨ c = 0 ∨ d = 0
    · rw [if_pos h, if_pos (by tauto)]
    · rw [if_neg h, if_neg (by tauto), haversineDistance_symm]
  · intro lat lon hlat hlon
    simp only [calculateDistance]
    rw [if_neg (by tauto), haversineDistance_self]
  · intro lat1 lon1 lat2 lon2
    rcases lat1 with _ | a <;> rcases lon1 with _ | b <;>
      rcases lat2 with _ | c <;> rcases lon2 with _ | d <;>
        (simp [calculateDistance]; try tauto)

/-- Witness for C6 (amended): identical nonzero coordinates give
distance 0. -/
theorem calculateDistance_properties_witness :
    calculateDistance (some 10) (some 20) (some 10) (some 20) = some 0 :=
  calculateDistance_properties.2.1 10 20 (by norm_num) (by norm_num)

end EmailSystem
